import Mathlib

/-!
# Verification of the icloud-photos-sync core against its specification

This file embeds the parts of the TypeScript sources that the checked
claims are about:

* `app/src/app/error-types.ts` — the `iCPSError` hierarchy with its
  static helpers `fatalError` and `toiCPSError`;
* `app/src/app/event/error-handler.ts` — `ErrorHandler.handle`,
  `ErrorHandler.reportError` and `ErrorHandler.cleanEnv`;
* `app/src/lib/icloud/icloud.ts` — the `authenticate`, `resendMFA` and
  `submitMFA` flows of the `iCloud` class, embedded as functions from the
  (modelled) HTTP outcome to the list of events the method emits;
* the library-lock and token-flow operations of `app/src/app/icloud-app.ts`,
  which are not part of the available sources (only their unit tests are)
  and are therefore modelled from the specification, as marked on each
  definition.

JavaScript runtime values that may flow through the error paths (errors,
strings, numbers, `null`, `undefined`) are embedded as the inductive type
`JSValue`; an `iCPSError` instance is the `icpsError` constructor, carrying
its class tag (`name`), message, severity, optional cause and context map.
-/

namespace ICPS

/-- Severity levels, from `error-types.ts` (`type Severity = 'WARN' | 'FATAL'`). -/
inductive Severity
  | WARN
  | FATAL
deriving DecidableEq, Repr

/-- The concrete error classes declared in `error-types.ts`.  `iCPSErrorBase`
is the base class `iCPSError` itself (used directly by `toiCPSError`). -/
inductive ErrorClass
  | iCPSErrorBase
  | InterruptError
  | iCloudError
  | iCloudWarning
  | iCloudAuthError
  | LibraryError
  | LibraryWarning
  | MFAWarning
  | TokenError
  | SyncError
  | SyncWarning
  | ArchiveError
  | ArchiveWarning
  | DaemonAppError
deriving DecidableEq, Repr

/-- `errorClass.name` as assigned in the `iCPSError` constructor. -/
def className : ErrorClass → String
  | .iCPSErrorBase => "iCPSError"
  | .InterruptError => "InterruptError"
  | .iCloudError => "iCloudError"
  | .iCloudWarning => "iCloudWarning"
  | .iCloudAuthError => "iCloudAuthError"
  | .LibraryError => "LibraryError"
  | .LibraryWarning => "LibraryWarning"
  | .MFAWarning => "MFAWarning"
  | .TokenError => "TokenError"
  | .SyncError => "SyncError"
  | .SyncWarning => "SyncWarning"
  | .ArchiveError => "ArchiveError"
  | .ArchiveWarning => "ArchiveWarning"
  | .DaemonAppError => "DaemonAppError"

/-- A JavaScript runtime value, restricted to the shapes that flow through the
error-handling paths of the program.  `icpsError` is an instance of the
`iCPSError` hierarchy: `cls` is its concrete class, `message`, `sev`, `cause`
and `context` are the fields set by the constructor, `addCause` and
`addContext`. -/
inductive JSValue where
  | icpsError (cls : ErrorClass) (message : String) (sev : Severity)
      (cause : Option JSValue) (context : List (String × JSValue))
  | plainError (message : String)
  | str (s : String)
  | num (n : Int)
  | boolean (b : Bool)
  | nullV
  | undefV
deriving Repr

/-- `v instanceof iCPSError`: every class of the hierarchy extends `iCPSError`. -/
def JSValue.isICPS : JSValue → Bool
  | .icpsError .. => true
  | _ => false

/-- `v instanceof Error`: both `iCPSError` instances and plain `Error`s. -/
def JSValue.isError : JSValue → Bool
  | .icpsError .. => true
  | .plainError _ => true
  | _ => false

/-- `v instanceof InterruptError` (`InterruptError` has no subclasses). -/
def JSValue.isInterrupt : JSValue → Bool
  | .icpsError .InterruptError .. => true
  | _ => false

/-- The `sev` field of an `iCPSError`; `none` for values that are not one. -/
def JSValue.sevOf : JSValue → Option Severity
  | .icpsError _ _ s _ _ => some s
  | _ => none

/-- The concrete error class of an `iCPSError`; `none` for other values. -/
def JSValue.errClass : JSValue → Option ErrorClass
  | .icpsError c _ _ _ _ => some c
  | _ => none

/-- The `.message` property (`"undefined"` stands for reading it off a
non-Error value, which the embedded code never does). -/
def JSValue.messageOf : JSValue → String
  | .icpsError _ m _ _ _ => m
  | .plainError m => m
  | _ => "undefined"

/-- `iCPSError.addCause(err)`: sets the `cause` field, returns the object. -/
def JSValue.addCause : JSValue → JSValue → JSValue
  | .icpsError c m s _ ctx, cause => .icpsError c m s (some cause) ctx
  | v, _ => v

/-- `iCPSError.addContext(key, ctx)`: stores the object under `key` in the
context map, returns the object. -/
def JSValue.addContext : JSValue → String → JSValue → JSValue
  | .icpsError c m s cz ctx, key, v => .icpsError c m s cz (ctx ++ [(key, v)])
  | v, _, _ => v

/-- `new iCloudError(cause)` from `error-types.ts`. -/
def mkICloudError (message : String) : JSValue :=
  .icpsError .iCloudError message .FATAL none []

/-- `new iCloudWarning(cause)` from `error-types.ts`. -/
def mkICloudWarning (message : String) : JSValue :=
  .icpsError .iCloudWarning message .WARN none []

/-- `new LibraryError(cause)` from `error-types.ts`. -/
def mkLibraryError (message : String) : JSValue :=
  .icpsError .LibraryError message .FATAL none []

/-- `new ArchiveError(cause)` from `error-types.ts`. -/
def mkArchiveError (message : String) : JSValue :=
  .icpsError .ArchiveError message .FATAL none []

/-- `new InterruptError(message)` from `error-types.ts` (the constructor
prefixes the message). -/
def mkInterruptError (message : String) : JSValue :=
  .icpsError .InterruptError ("Operation interrupted: " ++ message) .FATAL none []

/-- `iCPSError.fatalError(err)`:
`return !(err instanceof iCPSError && err.sev === 'WARN')`. -/
def fatalError (err : JSValue) : Bool :=
  !(err.isICPS && err.sevOf == some .WARN)

/-- `iCPSError.toiCPSError(err)`: returns `err` if it is already an
`iCPSError`; otherwise a fresh FATAL `iCPSError('Unknown error')` that
carries `err` as cause (if it is an `Error`) or in the context map under
`unknownErrorObject` (any other value). -/
def toiCPSError (err : JSValue) : JSValue :=
  if err.isICPS then err
  else if err.isError then
    (JSValue.icpsError .iCPSErrorBase "Unknown error" .FATAL none []).addCause err
  else
    (JSValue.icpsError .iCPSErrorBase "Unknown error" .FATAL none []).addContext
      "unknownErrorObject" err

/-- String rendering of a severity, as template literals interpolate it. -/
def severityString : Severity → String
  | .WARN => "WARN"
  | .FATAL => "FATAL"

/-- `iCPSError.getDescription()`: the error header followed by the rendered
cause chain. -/
def getDescription : JSValue → String
  | .icpsError cls msg sev cause _ =>
    let head := className cls ++ " (" ++ severityString sev ++ "): " ++ msg
    match cause with
    | none => head
    | some c =>
      head ++ " caused by " ++
        (match c with
         | .icpsError c2 m2 s2 cz2 ctx2 => getDescription (.icpsError c2 m2 s2 cz2 ctx2)
         | other => other.messageOf)
  | v => v.messageOf

/-!
## ErrorHandler (`app/src/app/event/error-handler.ts`)

`handle` converts the incoming value, decides whether to send a crash
report, appends the report id to the message, and emits the message on the
`warn` or `error` event depending on severity.  The backtrace client
(`btClient`) exists exactly when the handler was constructed with
`enableCrashReporting`; the fresh UUID that `reportError` would draw is
passed in as a parameter.  The observable outcome is captured in
`HandleResult`.
-/

/-- Observable outcome of one `ErrorHandler.handle` call: whether a crash
report was sent to the backend, the message string that was emitted and
logged, and on which of the two events it was emitted. -/
structure HandleResult where
  reportSent : Bool
  message : String
  warnEmitted : Bool
  errorEmitted : Bool
deriving Repr

/-- `ErrorHandler.reportError`: without a `btClient` it returns the
placeholder string and sends nothing; with one it sends the report and
returns the fresh UUID.  The first component records whether a report was
actually sent. -/
def reportError (crashReportingEnabled : Bool) (uuid : String) : Bool × String :=
  if crashReportingEnabled then (true, uuid)
  else (false, "No error code! Please enable crash reporting!")

/-- `ErrorHandler.handle(err)`. -/
def handle (crashReportingEnabled : Bool) (uuid : String) (err : JSValue) : HandleResult :=
  let e := toiCPSError err
  let shouldReport := e.sevOf == some .FATAL && !e.isInterrupt
  let sent := if shouldReport then (reportError crashReportingEnabled uuid).1 else false
  let message :=
    if shouldReport then
      getDescription e ++ " (Error Code: " ++ (reportError crashReportingEnabled uuid).2 ++ ")"
    else
      getDescription e
  if e.sevOf == some .WARN then
    ⟨sent, message, true, false⟩
  else
    ⟨sent, message, false, true⟩

/-!
## `ErrorHandler.cleanEnv` (`app/src/app/event/error-handler.ts`)

The process state it mutates: the environment map and the two argument
vectors.  JavaScript array assignment past the end of the array extends it
(holes read as `undefined`), which `jsArraySet` reproduces.
-/

/-- The mutable process state that `cleanEnv` operates on. -/
structure ProcState where
  env : List (String × String)
  argv : List String
  execArgv : List String
deriving DecidableEq, Repr

/-- `process.env[key]` truthiness: present and non-empty. -/
def envTruthy (env : List (String × String)) (key : String) : Bool :=
  match env.lookup key with
  | some v => v != ""
  | none => false

/-- `process.env[key] = v` for a key that is present. -/
def envSet (env : List (String × String)) (key v : String) : List (String × String) :=
  env.map (fun kv => if kv.1 == key then (key, v) else kv)

/-- JavaScript `arr[i] = v`: in-range assignment replaces, out-of-range
assignment extends the array (holes print as `undefined`). -/
def jsArraySet (l : List String) (i : Nat) (v : String) : List String :=
  if i < l.length then l.set i v
  else l ++ List.replicate (i - l.length) "undefined" ++ [v]

/-- `Array.prototype.findIndex(value => value === flag)`, as an `Option`. -/
def findFlag (l : List String) (flag : String) : Option Nat :=
  l.findIdx? (· == flag)

/-- One entry of the `confidentialData` table in `cleanEnv`. -/
structure ConfidentialEntry where
  envKey : String
  cli : List String
  replacement : String

/-- The `confidentialData` table of `cleanEnv`, in source order. -/
def confidentialData : List ConfidentialEntry :=
  [⟨"APPLE_ID_USER", ["-u", "--username"], "<APPLE ID USERNAME>"⟩,
   ⟨"APPLE_ID_PWD", ["-p", "--password"], "<APPLE ID PASSWORD>"⟩,
   ⟨"TRUST_TOKEN", ["-T", "--trust-token"], "<TRUST TOKEN>"⟩]

/-- The inner loop body of `cleanEnv` for one CLI flag: replace the value
following the flag in `argv`; then look the flag up in `execArgv` — but, as
in the source, write the replacement into `argv` at that index
(`process.argv[confidentialCliValueIndexExecArgV + 1] = ...`). -/
def scrubFlag (s : ProcState) (flag replacement : String) : ProcState :=
  let s1 :=
    match findFlag s.argv flag with
    | some i => { s with argv := jsArraySet s.argv (i + 1) replacement }
    | none => s
  match findFlag s1.execArgv flag with
  | some i => { s1 with argv := jsArraySet s1.argv (i + 1) replacement }
  | none => s1

/-- The outer loop body of `cleanEnv` for one confidential entry: scrub the
environment variable, then each CLI flag form. -/
def scrubEntry (s : ProcState) (e : ConfidentialEntry) : ProcState :=
  let s1 :=
    if envTruthy s.env e.envKey then { s with env := envSet s.env e.envKey e.replacement }
    else s
  e.cli.foldl (fun st flag => scrubFlag st flag e.replacement) s1

/-- `ErrorHandler.cleanEnv()`. -/
def cleanEnv (s : ProcState) : ProcState :=
  confidentialData.foldl scrubEntry s

/-!
## iCloud authentication flows (`app/src/lib/icloud/icloud.ts`)

Each method is embedded as a function from the outcome of its HTTP
request(s) to the ordered list of events the method emits on the `iCloud`
event emitter.  Axios resolves the signin POST only for 2xx statuses; any
other status makes it throw an error carrying the response, and a network
failure makes it throw an error without one.
-/

/-- Events emitted by the `iCloud` class that the embedded methods produce. -/
inductive ICloudEvent where
  | authenticationStarted
  | trusted
  | mfaRequired
  | authenticated
  | errorEvent (err : JSValue)
  | handlerEvent (err : JSValue)
deriving Repr

/-- The error axios throws for a non-2xx response status. -/
def axiosError (status : Nat) : JSValue :=
  .plainError ("Request failed with status code " ++ toString status)

/-- The response object, observable in this embedding through its status
(it is only ever attached verbatim as error context). -/
def responseObj (status : Nat) : JSValue :=
  .num status

/-- Outcome of the signin POST: a response with some HTTP status, or no
response at all (network failure). -/
inductive SigninResult where
  | response (status : Nat)
  | noResponse

/-- The error thrown by `auth.processAuthSecrets` when a header is missing;
`auth.ts` is not among the available sources, so only its class
(`iCloudAuthError`, the auth error type of `error-types.ts`) is modelled. -/
def authSecretsError : JSValue :=
  .icpsError .iCloudAuthError "Unable to process auth secrets" .FATAL none []

/-- `iCloud.authenticate()`: the list of events emitted for a given signin
outcome.  `secretsOk` tells whether `auth.processAuthSecrets` succeeds on
the response. -/
def authenticate (res : SigninResult) (secretsOk : Bool) : List ICloudEvent :=
  ICloudEvent.authenticationStarted ::
  match res with
  | .response status =>
    if 200 ≤ status ∧ status < 300 then
      -- axios resolved: the `try` branch
      if status ≠ 200 then
        [.errorEvent ((mkICloudError ("Unexpected HTTP code: " ++ toString status)).addContext
          "response" (responseObj status))]
      else if secretsOk then
        [.trusted]
      else
        [.errorEvent authSecretsError]
    else
      -- axios threw with a response: the `catch` branch
      (if status = 401 then
        [ICloudEvent.errorEvent ((mkICloudError "Username/Password does not seem to match").addCause
          (axiosError status))]
       else []) ++
      (if status = 403 then
        [ICloudEvent.errorEvent ((mkICloudError "Username does not seem to exist").addCause
          (axiosError status))]
       else []) ++
      (if status ≠ 409 then
        [ICloudEvent.errorEvent ((mkICloudError ("Unexpected HTTP code: " ++ toString status)).addCause
          (axiosError status))]
       else if secretsOk then
        [.mfaRequired]
       else
        [.errorEvent authSecretsError])
  | .noResponse =>
    [.errorEvent ((mkICloudError "No response received during authentication").addCause
      (.plainError "Network Error"))]

/-- Outcome of the resend PUT issued by `resendMFA`: a response together
with the verdict of `method.resendSuccessful(response)`, or a thrown error
(already mapped by `method.processResendError`, which is kept abstract by
letting the outcome carry the mapped error). -/
inductive MFAResendResult where
  | response (status : Nat) (resendOk : Bool)
  | thrown (err : JSValue)

/-- `iCloud.resendMFA(method)`: the list of events emitted. -/
def resendMFA (res : MFAResendResult) : List ICloudEvent :=
  match res with
  | .response status resendOk =>
    if resendOk then []
    else
      [.handlerEvent ((mkICloudWarning "Unable to request new MFA code").addContext
        "response" (responseObj status))]
  | .thrown err =>
    [.handlerEvent ((mkICloudWarning "Requesting MFA code failed").addCause err)]

/-- Outcome of the submit POST issued by `submitMFA`: a response together
with the verdict of `method.enterSuccessful(response)`, or a thrown error. -/
inductive MFASubmitResult where
  | response (status : Nat) (enterOk : Bool)
  | thrown (err : JSValue)

/-- Observable outcome of one `submitMFA` call: whether the MFA intake
server is still running afterwards, and the emitted events. -/
structure SubmitOutcome where
  serverRunning : Bool
  events : List ICloudEvent
deriving Repr

/-- `iCloud.submitMFA(method, mfa)`: the first statement of the `try` block
is `this.mfaServer.stopServer()`, so the server is stopped before the code
is validated; a failed validation throws, and the `catch` block emits a
fatal `iCloudError` on the `error` event. -/
def submitMFA (res : MFASubmitResult) : SubmitOutcome :=
  match res with
  | .response status enterOk =>
    if enterOk then
      ⟨false, [.authenticated]⟩
    else
      ⟨false, [.errorEvent ((mkICloudError "Received error during MFA validation").addCause
        ((mkICloudError ("Received unexpected response status code (" ++ toString status ++
          ") during MFA validation")).addContext "response" (responseObj status)))]⟩
  | .thrown err =>
    ⟨false, [.errorEvent ((mkICloudError "Received error during MFA validation").addCause err)]⟩

/-!
## Library lock and token flow (`app/src/app/icloud-app.ts`)

`icloud-app.ts` is not among the available sources; only its unit tests
(`app/test/unit/app.test.ts`) are.  The operations below are therefore
modelled from the specification (§4.1, §9, scenario S5) with the exact
error messages the unit tests assert.  The lock state is the content of
`<dataDir>/.library.lock`: `none` when the file is absent, `some p` when it
holds the ASCII decimal pid `p`.
-/

/-- Name of the lock file (`LIBRARY_LOCK_FILE` in `icloud-app.ts`). -/
def LIBRARY_LOCK_FILE : String := ".library.lock"

/-- Outcome of a lock operation: the resulting lock-file state and the
error the operation rejects with, if any. -/
structure LockOpResult where
  lock : Option Nat
  error : Option JSValue
deriving Repr

/-- The error thrown when acquisition finds a foreign lock, with the
message asserted by the unit test. -/
def lockedByError (p : Nat) : JSValue :=
  mkLibraryError ("Locked by PID " ++ toString p ++
    ". Use --force (or FORCE env variable) to forcefully remove the lock")

/-- The error thrown when release finds a foreign lock, with the message
asserted by the unit test. -/
def cannotReleaseError (p : Nat) : JSValue :=
  mkLibraryError ("Locked by PID " ++ toString p ++
    ", cannot release. Use --force (or FORCE env variable) to forcefully remove the lock")

/-- The error thrown when release finds no lock file, with the message
asserted by the unit test. -/
def noLockError : JSValue :=
  mkLibraryError "Unable to release library lock, no lock exists"

/-- Modelled from the spec: `acquireLibraryLock` of `icloud-app.ts` is not
among the available sources (only its unit tests are).  §4.1: "Acquire: if
absent, create; if present with pid ≠ self, fail with
`LibraryError('Locked by PID N')` unless `force=true`, in which case
overwrite". -/
def acquireLibraryLock (pid : Nat) (force : Bool) (lock : Option Nat) : LockOpResult :=
  match lock with
  | none => ⟨some pid, none⟩
  | some p =>
    if p = pid ∨ force then ⟨some pid, none⟩
    else ⟨some p, some (lockedByError p)⟩

/-- Modelled from the spec: `releaseLibraryLock` of `icloud-app.ts` is not
among the available sources (only its unit tests are).  §4.1: "Release:
read file; if pid ≠ self, fail unless `force`; otherwise unlink.  Absence
of a lock at release time is a separate error kind (`NoLock`)". -/
def releaseLibraryLock (pid : Nat) (force : Bool) (lock : Option Nat) : LockOpResult :=
  match lock with
  | none => ⟨none, some noLockError⟩
  | some p =>
    if p = pid ∨ force then ⟨none, none⟩
    else ⟨some p, some (cannotReleaseError p)⟩

/-- The steps of `TokenApp.run` that the unit tests observe. -/
inductive TokenRunStep
  | acquireLock
  | authenticateStep
  | emitTokenStep
  | releaseLock
deriving DecidableEq, Repr

/-- Modelled from the spec: `TokenApp.run` of `icloud-app.ts` is not among
the available sources (only its unit tests are).  The run acquires the
library lock, authenticates, emits the token, and releases the lock in a
`finally` block; one catch wraps any failure, and per §9 "the source wraps
a lock-acquisition failure as `ArchiveError('Unable to get trust token')`"
(the unit tests assert this message for both failure modes).  The failure
of a step is modelled by passing the error the step rejects with. -/
def tokenAppRun (lockFailure : Option JSValue) (authFailure : Option JSValue) :
    List TokenRunStep × Option JSValue :=
  match lockFailure with
  | some e =>
    ([.acquireLock, .releaseLock],
     some ((mkArchiveError "Unable to get trust token").addCause e))
  | none =>
    match authFailure with
    | some e =>
      ([.acquireLock, .authenticateStep, .releaseLock],
       some ((mkArchiveError "Unable to get trust token").addCause e))
    | none =>
      ([.acquireLock, .authenticateStep, .emitTokenStep, .releaseLock], none)

/-!
## Helper lemmas
-/

/-- A string starting with `"Locked by PID "` is never the no-lock message. -/
lemma lockedByPID_ne_noLock_msg (r : String) :
    ("Locked by PID " ++ r) ≠ "Unable to release library lock, no lock exists" := by
  intro h
  have hd := congrArg String.data h
  rw [String.data_append] at hd
  have : "Locked by PID ".data = 'L' :: "ocked by PID ".data := rfl
  rw [this] at hd
  have : "Unable to release library lock, no lock exists".data =
      'U' :: "nable to release library lock, no lock exists".data := rfl
  rw [this] at hd
  exact absurd (List.head_eq_of_cons_eq hd) (by decide)

/-- `scrubFlag` never writes to `execArgv` (the source writes both
replacements into `argv`). -/
lemma scrubFlag_execArgv (s : ProcState) (flag r : String) :
    (scrubFlag s flag r).execArgv = s.execArgv := by
  cases h1 : findFlag s.argv flag with
  | none => cases h2 : findFlag s.execArgv flag <;> simp [scrubFlag, h1, h2]
  | some i => cases h2 : findFlag s.execArgv flag <;> simp [scrubFlag, h1, h2]

/-- The inner flag loop of `cleanEnv` never writes to `execArgv`. -/
lemma foldl_scrubFlag_execArgv (l : List String) (r : String) (s : ProcState) :
    (l.foldl (fun st flag => scrubFlag st flag r) s).execArgv = s.execArgv := by
  induction l generalizing s with
  | nil => rfl
  | cons a t ih => rw [List.foldl_cons, ih, scrubFlag_execArgv]

/-- `scrubEntry` never writes to `execArgv`. -/
lemma scrubEntry_execArgv (s : ProcState) (e : ConfidentialEntry) :
    (scrubEntry s e).execArgv = s.execArgv := by
  unfold scrubEntry
  cases h : envTruthy s.env e.envKey <;> simp [h, foldl_scrubFlag_execArgv]

/-!
## Claim theorems
-/

/-- C9: `iCPSError.fatalError(err)` returns `false` exactly when `err` is an
instance of `iCPSError` with severity `WARN`; every other value — including
plain `Error` objects, strings, `null` and `undefined` — is classified as
fatal. -/
theorem fatalError_false_iff_icps_warn (v : JSValue) (m s : String) :
    (fatalError v = false ↔ v.isICPS = true ∧ v.sevOf = some Severity.WARN)
    ∧ fatalError (.plainError m) = true
    ∧ fatalError (.str s) = true
    ∧ fatalError .nullV = true
    ∧ fatalError .undefV = true := by
  refine ⟨?_, rfl, rfl, rfl, rfl⟩
  cases v with
  | icpsError cls msg sev cause ctx =>
    cases sev <;> simp [fatalError, JSValue.isICPS, JSValue.sevOf]
  | plainError m => simp [fatalError, JSValue.isICPS, JSValue.sevOf]
  | str s => simp [fatalError, JSValue.isICPS, JSValue.sevOf]
  | num n => simp [fatalError, JSValue.isICPS, JSValue.sevOf]
  | boolean b => simp [fatalError, JSValue.isICPS, JSValue.sevOf]
  | nullV => simp [fatalError, JSValue.isICPS, JSValue.sevOf]
  | undefV => simp [fatalError, JSValue.isICPS, JSValue.sevOf]

/-- C10: `iCPSError.toiCPSError` returns its argument unchanged on
`iCPSError`s and is idempotent; a non-`iCPSError` `Error` becomes a fresh
FATAL `'Unknown error'` `iCPSError` with the original error as cause; any
other value yields that error with the value stored in the context under
`unknownErrorObject`. -/
theorem toiCPSError_spec (v : JSValue) (m : String) :
    toiCPSError (toiCPSError v) = toiCPSError v
    ∧ (v.isICPS = true → toiCPSError v = v)
    ∧ toiCPSError (.plainError m) =
        .icpsError .iCPSErrorBase "Unknown error" .FATAL (some (.plainError m)) []
    ∧ (v.isError = false →
        toiCPSError v =
          .icpsError .iCPSErrorBase "Unknown error" .FATAL none
            [("unknownErrorObject", v)]) := by
  refine ⟨?_, ?_, rfl, ?_⟩
  · cases v <;>
      simp [toiCPSError, JSValue.isICPS, JSValue.isError, JSValue.addCause, JSValue.addContext]
  · intro h
    cases v <;> simp_all [toiCPSError, JSValue.isICPS]
  · intro h
    cases v <;>
      simp_all [toiCPSError, JSValue.isICPS, JSValue.isError, JSValue.addContext]

/-- Witness for C10 at concrete inputs. -/
theorem toiCPSError_spec_witness :
    toiCPSError (toiCPSError (.str "boom")) = toiCPSError (.str "boom")
    ∧ toiCPSError (mkICloudError "e") = mkICloudError "e"
    ∧ toiCPSError (.str "boom") =
        .icpsError .iCPSErrorBase "Unknown error" .FATAL none
          [("unknownErrorObject", .str "boom")] := by
  have h1 := toiCPSError_spec (.str "boom") "m"
  have h2 := toiCPSError_spec (mkICloudError "e") "m"
  exact ⟨h1.1, h2.2.1 rfl, h1.2.2.2 rfl⟩

/-- C2: acquiring the library lock: with no lock file it is created with the
current pid; with a foreign pid and no force it fails with the
`LibraryError` naming the locking pid and the lock file is unchanged; with
force it is overwritten with the current pid. -/
theorem acquireLibraryLock_spec (pid p : Nat) :
    acquireLibraryLock pid false none = ⟨some pid, none⟩
    ∧ acquireLibraryLock pid true none = ⟨some pid, none⟩
    ∧ (p ≠ pid →
        acquireLibraryLock pid false (some p) = ⟨some p, some (lockedByError p)⟩)
    ∧ acquireLibraryLock pid true (some p) = ⟨some pid, none⟩ := by
  refine ⟨rfl, rfl, ?_, ?_⟩
  · intro h
    simp [acquireLibraryLock, h]
  · simp [acquireLibraryLock]

/-- Witness for C2 at concrete pids. -/
theorem acquireLibraryLock_spec_witness :
    (2 ≠ 1)
    ∧ acquireLibraryLock 1 false none = ⟨some 1, none⟩
    ∧ acquireLibraryLock 1 false (some 2) = ⟨some 2, some (lockedByError 2)⟩
    ∧ acquireLibraryLock 1 true (some 2) = ⟨some 1, none⟩ := by
  have h := acquireLibraryLock_spec 1 2
  exact ⟨by decide, h.1, h.2.2.1 (by decide), h.2.2.2⟩

/-- C7: releasing the library lock: a foreign pid without force fails with a
`LibraryError` and the lock file stays; with force the lock file is
unlinked; with no lock file the operation fails with the distinct no-lock
`LibraryError`. -/
theorem releaseLibraryLock_spec (pid p : Nat) (force : Bool) :
    (p ≠ pid →
        releaseLibraryLock pid false (some p) = ⟨some p, some (cannotReleaseError p)⟩)
    ∧ releaseLibraryLock pid true (some p) = ⟨none, none⟩
    ∧ releaseLibraryLock pid force none = ⟨none, some noLockError⟩
    ∧ noLockError ≠ cannotReleaseError p := by
  refine ⟨?_, ?_, rfl, ?_⟩
  · intro h
    simp [releaseLibraryLock, h]
  · simp [releaseLibraryLock]
  · intro h
    have hm : noLockError.messageOf = (cannotReleaseError p).messageOf := by rw [h]
    simp only [noLockError, cannotReleaseError, mkLibraryError, JSValue.messageOf] at hm
    have : ("Locked by PID " ++ (toString p ++
        ", cannot release. Use --force (or FORCE env variable) to forcefully remove the lock")) =
        "Unable to release library lock, no lock exists" := by
      rw [← String.append_assoc]
      exact hm.symm
    exact lockedByPID_ne_noLock_msg _ this

/-- Witness for C7 at concrete pids. -/
theorem releaseLibraryLock_spec_witness :
    (2 ≠ 1)
    ∧ releaseLibraryLock 1 false (some 2) = ⟨some 2, some (cannotReleaseError 2)⟩
    ∧ releaseLibraryLock 1 true (some 2) = ⟨none, none⟩
    ∧ releaseLibraryLock 1 false none = ⟨none, some noLockError⟩ := by
  have h := releaseLibraryLock_spec 1 2 false
  exact ⟨by decide, h.1 (by decide), h.2.1, h.2.2.1⟩

/-- C1: outcome of `iCloud.authenticate` per signin status.  200 and 409
behave as claimed, but a 401 (resp. 403) response does NOT produce a single
outcome: the code emits the bad-credentials (resp. unknown-user) fatal
error and then additionally the unexpected-HTTP-code fatal error, because
the 401/403 branches lack an early return. -/
theorem authenticate_status_outcomes :
    authenticate (.response 200) true = [.authenticationStarted, .trusted]
    ∧ authenticate (.response 409) true = [.authenticationStarted, .mfaRequired]
    ∧ authenticate (.response 401) true =
        [.authenticationStarted,
         .errorEvent ((mkICloudError "Username/Password does not seem to match").addCause
           (axiosError 401)),
         .errorEvent ((mkICloudError "Unexpected HTTP code: 401").addCause (axiosError 401))]
    ∧ authenticate (.response 403) true =
        [.authenticationStarted,
         .errorEvent ((mkICloudError "Username does not seem to exist").addCause
           (axiosError 403)),
         .errorEvent ((mkICloudError "Unexpected HTTP code: 403").addCause (axiosError 403))]
    ∧ authenticate (.response 500) true =
        [.authenticationStarted,
         .errorEvent ((mkICloudError "Unexpected HTTP code: 500").addCause (axiosError 500))] :=
  ⟨rfl, rfl, rfl, rfl, rfl⟩

/-- C3 counterexample: a submit whose code fails validation
(`enterSuccessful` false) still leaves the MFA intake server stopped — the
server is stopped before validation, so a wrong code cannot be retried
through a still-running server; the failure is emitted as a fatal error. -/
theorem submitMFA_failed_submit_stops_server :
    (submitMFA (.response 400 false)).serverRunning = false
    ∧ (submitMFA (.response 400 false)).events =
        [.errorEvent ((mkICloudError "Received error during MFA validation").addCause
          ((mkICloudError
              "Received unexpected response status code (400) during MFA validation").addContext
            "response" (responseObj 400)))] :=
  ⟨rfl, rfl⟩

/-- C3 amended: after a code is submitted on the MFA channel the intake
server is stopped unconditionally — `stopServer()` runs before the code is
validated — and the call either emits `AUTHENTICATED` (validation
succeeded) or a single fatal error event (validation failed). -/
theorem submitMFA_always_stops_server (res : MFASubmitResult) :
    (submitMFA res).serverRunning = false
    ∧ ((submitMFA res).events = [.authenticated]
       ∨ ∃ e, (submitMFA res).events = [.errorEvent e]) := by
  cases res with
  | response status enterOk =>
    cases enterOk with
    | false => exact ⟨rfl, Or.inr ⟨_, rfl⟩⟩
    | true => exact ⟨rfl, Or.inl rfl⟩
  | thrown err => exact ⟨rfl, Or.inr ⟨_, rfl⟩⟩

/-- C4: in the token flow a lock-acquisition failure makes the run reject
with `ArchiveError("Unable to get trust token")` (the message bug noted in
the spec — a `LibraryError` per the specification's intent), `authenticate`
is never invoked, and the lock release step still executes. -/
theorem tokenAppRun_lock_failure (e : JSValue) :
    tokenAppRun (some e) none =
      ([.acquireLock, .releaseLock],
       some ((mkArchiveError "Unable to get trust token").addCause e))
    ∧ TokenRunStep.authenticateStep ∉ (tokenAppRun (some e) none).1
    ∧ TokenRunStep.releaseLock ∈ (tokenAppRun (some e) none).1
    ∧ (tokenAppRun (some e) none).2.bind JSValue.errClass = some .ArchiveError
    ∧ (tokenAppRun (some e) none).2.bind JSValue.errClass ≠ some .LibraryError := by
  refine ⟨rfl, ?_, ?_, rfl, ?_⟩
  · show TokenRunStep.authenticateStep ∉ ([.acquireLock, .releaseLock] : List TokenRunStep)
    decide
  · show TokenRunStep.releaseLock ∈ ([.acquireLock, .releaseLock] : List TokenRunStep)
    decide
  · intro h
    simp [tokenAppRun, mkArchiveError, JSValue.addCause, JSValue.errClass] at h

/-- C6: a failed resend of an MFA code surfaces an `iCloudWarning` of
severity WARN on the handler event, while a failed submit surfaces an
`iCloudError` of severity FATAL on the error event — for both failure modes
(unexpected response and thrown request error) of each call. -/
theorem mfa_failure_severities (status : Nat) (e : JSValue) :
    (∃ w, resendMFA (.response status false) = [.handlerEvent w]
      ∧ w.sevOf = some .WARN ∧ w.errClass = some .iCloudWarning)
    ∧ (∃ w, resendMFA (.thrown e) = [.handlerEvent w]
      ∧ w.sevOf = some .WARN ∧ w.errClass = some .iCloudWarning)
    ∧ (∃ f, (submitMFA (.response status false)).events = [.errorEvent f]
      ∧ f.sevOf = some .FATAL ∧ f.errClass = some .iCloudError)
    ∧ (∃ f, (submitMFA (.thrown e)).events = [.errorEvent f]
      ∧ f.sevOf = some .FATAL ∧ f.errClass = some .iCloudError) :=
  ⟨⟨_, rfl, rfl, rfl⟩, ⟨_, rfl, rfl, rfl⟩, ⟨_, rfl, rfl, rfl⟩, ⟨_, rfl, rfl, rfl⟩⟩

/-- C5 counterexample: with crash reporting disabled, a FATAL,
non-interrupt error is handled without any report being sent to the
backend — so "a report is sent iff the error is FATAL and not an
InterruptError" fails as stated. -/
theorem handle_fatal_without_report :
    (handle false "3e3f1c20-0000-0000-0000-000000000000" (.plainError "boom")).reportSent = false
    ∧ (toiCPSError (.plainError "boom")).sevOf = some .FATAL
    ∧ (toiCPSError (.plainError "boom")).isInterrupt = false :=
  ⟨rfl, rfl, rfl⟩

/-- C5 amended: a crash report is sent iff crash reporting is enabled AND
the converted error is FATAL and not an `InterruptError`; when a report is
sent, the report UUID is appended to the emitted message; WARN errors are
emitted on the warn event, all others on the error event. -/
theorem handle_spec (enabled : Bool) (uuid : String) (err : JSValue) :
    ((handle enabled uuid err).reportSent =
      (enabled && ((toiCPSError err).sevOf == some .FATAL)
        && !(toiCPSError err).isInterrupt))
    ∧ ((handle enabled uuid err).reportSent = true →
        (handle enabled uuid err).message =
          getDescription (toiCPSError err) ++ " (Error Code: " ++ uuid ++ ")")
    ∧ ((toiCPSError err).sevOf = some .WARN →
        (handle enabled uuid err).warnEmitted = true
        ∧ (handle enabled uuid err).errorEmitted = false)
    ∧ ((toiCPSError err).sevOf ≠ some .WARN →
        (handle enabled uuid err).warnEmitted = false
        ∧ (handle enabled uuid err).errorEmitted = true) := by
  simp only [handle, reportError]
  refine ⟨?_, ?_, ?_, ?_⟩
  · cases hR : ((toiCPSError err).sevOf == some Severity.FATAL
        && !(toiCPSError err).isInterrupt) <;>
      cases enabled <;>
      cases hW : ((toiCPSError err).sevOf == some Severity.WARN) <;>
      simp [hR, hW]
  · intro hSent
    cases hR : ((toiCPSError err).sevOf == some Severity.FATAL
        && !(toiCPSError err).isInterrupt) <;>
      cases enabled <;>
      cases hW : ((toiCPSError err).sevOf == some Severity.WARN) <;>
      simp_all [hR, hW]
  · intro hWarn
    have hW : ((toiCPSError err).sevOf == some Severity.WARN) = true := by
      simp [hWarn]
    have hR : ((toiCPSError err).sevOf == some Severity.FATAL) = false := by
      simp [hWarn]
    simp [hW, hR]
  · intro hWarn
    have hW : ((toiCPSError err).sevOf == some Severity.WARN) = false := by
      simpa using hWarn
    simp [hW]

/-- Witness for C5's amended theorem: a FATAL error with reporting enabled
gets a report and the UUID-suffixed message on the error event; a WARN
error goes to the warn event without a report. -/
theorem handle_spec_witness :
    ((handle true "uuid-1" (.plainError "boom")).reportSent = true
     ∧ (handle true "uuid-1" (.plainError "boom")).message =
        getDescription (toiCPSError (.plainError "boom")) ++ " (Error Code: " ++ "uuid-1" ++ ")"
     ∧ (handle true "uuid-1" (.plainError "boom")).warnEmitted = false
     ∧ (handle true "uuid-1" (.plainError "boom")).errorEmitted = true)
    ∧ ((handle true "uuid-2" (mkICloudWarning "w")).reportSent = false
       ∧ (handle true "uuid-2" (mkICloudWarning "w")).warnEmitted = true
       ∧ (handle true "uuid-2" (mkICloudWarning "w")).errorEmitted = false) := by
  have h1 := handle_spec true "uuid-1" (.plainError "boom")
  have h2 := handle_spec true "uuid-2" (mkICloudWarning "w")
  have hne : (toiCPSError (.plainError "boom")).sevOf ≠ some Severity.WARN := by decide
  have hwarn : (toiCPSError (mkICloudWarning "w")).sevOf = some Severity.WARN := by decide
  exact ⟨⟨rfl, h1.2.1 rfl, (h1.2.2.2 hne).1, (h1.2.2.2 hne).2⟩,
         ⟨rfl, (h2.2.2.1 hwarn).1, (h2.2.2.1 hwarn).2⟩⟩

/-- C8: `cleanEnv` never scrubs `process.execArgv` — the inner loop
computes the flag index in `execArgv` but writes the placeholder into
`process.argv` at that index.  At the concrete failing input the password
stays readable in `execArgv` while `argv` is extended with the placeholder
at an unrelated position. -/
theorem cleanEnv_leaves_execArgv_unscrubbed :
    cleanEnv ⟨[], [], ["-p", "hunter2"]⟩ =
      ⟨[], ["undefined", "<APPLE ID PASSWORD>"], ["-p", "hunter2"]⟩
    ∧ ∀ s : ProcState, (cleanEnv s).execArgv = s.execArgv := by
  refine ⟨?_, ?_⟩
  · simp [cleanEnv, confidentialData, scrubEntry, scrubFlag, envTruthy, findFlag, jsArraySet,
      envSet, List.findIdx?]
  intro s
  have aux : ∀ (l : List ConfidentialEntry) (st : ProcState),
      (l.foldl scrubEntry st).execArgv = st.execArgv := by
    intro l
    induction l with
    | nil => intro st; rfl
    | cons a t ih =>
      intro st
      rw [List.foldl_cons, ih, scrubEntry_execArgv]
  exact aux confidentialData s

end ICPS
